import Mathlib

/-!
Verification development for the sid-device repository (WilfredC64/sid-device).

The relevant Rust sources are shallowly embedded here:
  * `src/src-tauri/src/sid_device_server/player.rs`        (the `Player` struct)
  * `src/src-tauri/src/sid_device_server/player/audio_renderer.rs`
    (`generate_sample`, `process_player_command`, the worker loop)
  * `src/src-tauri/src/sid_device_server.rs`
    (`Command::from_u8`, `process_command`, `process_writes`)

Machine integers are modelled as `Nat` with explicit `% 2^w` where overflow can
occur (u8 and u32 arithmetic in release mode wraps); i32 values that can be
negative are modelled as `Int`.  The SID DSP core (the `resid` crate) is out of
scope of the specification; its only observable effects here are the trace of
clock advances and register writes it receives, modelled by `SidEvent`, and the
byte returned by a register read, which no claim depends on and which is
abstracted as 0.
-/

namespace SidDevice

/-- SidWrite from audio_renderer.rs: `{ reg: u8, data: u8, cycles: u16 }`. -/
structure SidWrite where
  reg : Nat
  data : Nat
  cycles : Nat
deriving Repr, DecidableEq

/-- player.rs: `const SID_WRITES_BUFFER_SIZE: usize = 65_536;` -/
def SID_WRITES_BUFFER_SIZE : Nat := 65536

/-- player.rs: `const MAX_CYCLES_IN_BUFFER: u32 = 63*312 * 50 * 3;` -/
def MAX_CYCLES_IN_BUFFER : Nat := 63 * 312 * 50 * 3

/-- player.rs: `const MIN_CYCLES_TO_DRAIN_QUEUE: u32 = 500_000;` -/
def MIN_CYCLES_TO_DRAIN_QUEUE : Nat := 500000

/-- player.rs: `const MIN_WRITES_TO_DRAIN_QUEUE: usize = 300;` -/
def MIN_WRITES_TO_DRAIN_QUEUE : Nat := 300

/-- audio_renderer.rs: `const CYCLES_PER_SAMPLE: u32 = 5_000;` -/
def CYCLES_PER_SAMPLE : Nat := 5000

/-- audio_renderer.rs: `const AUDIO_STREAM_MAX_LIMIT: usize = 55_000;` -/
def AUDIO_STREAM_MAX_LIMIT : Nat := 55000

/-- audio_renderer.rs: `const PAL_CLOCK: u32 = 985_248;` -/
def PAL_CLOCK : Nat := 985248

/-- audio_renderer.rs: `const NTSC_CLOCK: u32 = 1_022_727;` -/
def NTSC_CLOCK : Nat := 1022727

/-- sid_device_server.rs: `const PROTOCOL_VERSION: u8 = 4;` -/
def PROTOCOL_VERSION : Nat := 4

/-- sid_device_server.rs: `const NUMBER_OF_DEVICES: u8 = 2;` -/
def NUMBER_OF_DEVICES : Nat := 2

/-- The shared pacing state owned by `Player` (player.rs lines 20-28):
the SPSC write queue (front of the list = oldest element, `try_push` appends
at the back, the worker pops from the front), the `cycles_in_buffer` counter
(an `AtomicU32`, hence kept below `2^32` by explicit wrapping), and the
`queue_started` / `aborted` latches. -/
structure PlayerState where
  queue : List SidWrite
  cycles_in_buffer : Nat
  queue_started : Bool
  aborted : Bool
deriving Repr, DecidableEq

/-- The state of a freshly constructed `Player` (player.rs `Player::new`):
empty queue, zero cycle counter, both flags false. -/
def initPlayer : PlayerState :=
  { queue := [], cycles_in_buffer := 0, queue_started := false, aborted := false }

/-- Sum of the `cycles` fields of the queued writes ("cycles pending"). -/
def cycSum : List SidWrite → Nat
  | [] => 0
  | w :: rest => w.cycles + cycSum rest

/-- The boolean condition computed inside `Player::has_max_data_in_buffer`
(player.rs lines 65-72): queue length above half the buffer capacity, or
pending cycles above `MAX_CYCLES_IN_BUFFER`. -/
def hasMaxCond (s : PlayerState) : Bool :=
  decide (s.queue.length > SID_WRITES_BUFFER_SIZE / 2) ||
  decide (s.cycles_in_buffer > MAX_CYCLES_IN_BUFFER)

/-- `Player::start_draining` (player.rs lines 78-80): sets `queue_started`. -/
def start_draining (s : PlayerState) : PlayerState :=
  { s with queue_started := true }

/-- `Player::has_max_data_in_buffer` (player.rs lines 65-72).  Returns the
boolean result together with the possibly updated state: when the condition
holds it calls `start_draining` before returning. -/
def has_max_data_in_buffer (s : PlayerState) : Bool × PlayerState :=
  if hasMaxCond s then (true, start_draining s) else (false, s)

/-- `Player::has_min_data_in_buffer` (player.rs lines 74-76). -/
def has_min_data_in_buffer (s : PlayerState) : Bool :=
  decide (s.cycles_in_buffer > MIN_CYCLES_TO_DRAIN_QUEUE) ||
  decide (s.queue.length > MIN_WRITES_TO_DRAIN_QUEUE)

/-- `Player::write_to_sid` (player.rs lines 82-86): `try_push` the write (the
push silently fails when the ring is at capacity) and unconditionally
`fetch_add` the cycles onto the `AtomicU32` counter (which wraps at `2^32`). -/
def write_to_sid (s : PlayerState) (reg data cycles : Nat) : PlayerState :=
  let queue :=
    if s.queue.length < SID_WRITES_BUFFER_SIZE then
      s.queue ++ [{ reg := reg, data := data, cycles := cycles }]
    else s.queue
  { s with
    queue := queue
    cycles_in_buffer := (s.cycles_in_buffer + cycles) % 2 ^ 32 }

/-- `Player::clear_queue` (player.rs lines 147-151): zero the counter, clear
the queue, reset `queue_started`. -/
def clear_queue (s : PlayerState) : PlayerState :=
  { s with cycles_in_buffer := 0, queue := [], queue_started := false }

/-- `Player::flush` (player.rs lines 97-100): `clear_queue` then latch
`aborted`. -/
def flush (s : PlayerState) : PlayerState :=
  { clear_queue s with aborted := true }

/-- `Player::dummy_write` (player.rs lines 153-155): push a cycle-burning
write to the no-op register `0x1e` of the SID selected by the top three bits
of `reg` (`(reg & 0xe0) + 0x1e`; `reg` is a `u8`, so `& 0xe0` is
`% 256 / 32 * 32`). -/
def dummy_write (s : PlayerState) (reg cycles : Nat) : PlayerState :=
  write_to_sid s (reg % 256 / 32 * 32 + 0x1e) 0 cycles

/-- One observable effect of the worker on the SID core array
(audio_renderer.rs `generate_sample`): either all SIDs are clocked forward by
`cycles` cycles, or register `reg` of SID number `sidIndex` is written with
`data`. -/
inductive SidEvent where
  | advance (cycles : Nat)
  | write (sidIndex reg data : Nat)
deriving Repr, DecidableEq

/-- The SID-core events produced for one popped `SidWrite` in the body of the
`while total_cycles < CYCLES_PER_SAMPLE` loop of `generate_sample`
(audio_renderer.rs lines 556-610): when `cycles > 0` the SIDs are advanced by
`cycles` (the inner `while cycles > 0` sample loop consumes exactly the
write's cycles in total) and then the pair `(reg & 0x1f, data)` is written
into SID index `min(reg >> 5, sid_count - 1)`; when `cycles == 0` the whole
block is skipped and the popped write produces no event at all. -/
def popEvents (sid_count : Nat) (w : SidWrite) : List SidEvent :=
  if 0 < w.cycles then
    [SidEvent.advance w.cycles,
     SidEvent.write (min (w.reg / 32) (sid_count - 1)) (w.reg % 32) w.data]
  else []

/-- The events produced by consuming a list of writes in order. -/
def deliveredEvents (sid_count : Nat) : List SidWrite → List SidEvent
  | [] => []
  | w :: rest => popEvents sid_count w ++ deliveredEvents sid_count rest

/-- The pop loop of `generate_sample` (audio_renderer.rs lines 556-610):
`while total_cycles < CYCLES_PER_SAMPLE` pop one write from the queue (break
when empty), accumulate its cycles into `total_cycles` and emit its events.
Returns the emitted events, the final `total_cycles`, and the remaining
queue.  The PCM mixing, dithering and pushing into the audio ring do not
affect the queue, the counter or the SID event trace and are not modelled. -/
def generate_sample_loop (sid_count : Nat) : List SidWrite → Nat → List SidEvent × Nat × List SidWrite
  | [], total => ([], total, [])
  | w :: rest, total =>
    if total < CYCLES_PER_SAMPLE then
      let r := generate_sample_loop sid_count rest (total + w.cycles)
      (popEvents sid_count w ++ r.1, r.2.1, r.2.2)
    else ([], total, w :: rest)

/-- `generate_sample` (audio_renderer.rs lines 528-620) restricted to its
observable effects on the write queue, the `cycles_in_buffer` counter and the
SID core: if the PCM ring already holds more than `AUDIO_STREAM_MAX_LIMIT`
samples it returns immediately; otherwise it runs the pop loop and finally
decrements `cycles_in_buffer` by the consumed cycles, saturating at 0 (the
code stores 0 unless the counter strictly exceeds the consumed total, which
is exactly `Nat` truncated subtraction).  Returns
(events, remaining queue, new counter). -/
def generate_sample (sid_count audio_len : Nat) (q : List SidWrite) (cycles_in_buffer : Nat) :
    List SidEvent × List SidWrite × Nat :=
  if audio_len > AUDIO_STREAM_MAX_LIMIT then ([], q, cycles_in_buffer)
  else
    let r := generate_sample_loop sid_count q 0
    (r.1, r.2.2, cycles_in_buffer - r.2.1)

/-- `generate_sample` lifted to `PlayerState`. -/
def worker_generate_sample (sid_count audio_len : Nat) (s : PlayerState) :
    List SidEvent × PlayerState :=
  let r := generate_sample sid_count audio_len s.queue s.cycles_in_buffer
  (r.1, { s with queue := r.2.1, cycles_in_buffer := r.2.2 })

/-- The worker's synchronous drain on a `PlayerCommand::Read`
(audio_renderer.rs lines 325-335): `while !queue.is_empty()` call
`generate_sample`.  Each call with a non-empty queue pops at least one write
(the loop guard `0 < CYCLES_PER_SAMPLE` holds initially), so the queue length
bounds the number of iterations; the recursion is driven by that fuel and
`drainLoop_spec` below proves the loop indeed reaches the empty queue.  The
PCM ring is drained concurrently by the audio callback, so the
`AUDIO_STREAM_MAX_LIMIT` early-out is modelled as not taken (`audio_len = 0`). -/
def drainLoopFuel (sid_count : Nat) : Nat → List SidWrite → Nat → List SidWrite × Nat
  | 0, q, c => (q, c)
  | _ + 1, [], c => ([], c)
  | fuel + 1, w :: rest, c =>
    let r := generate_sample sid_count 0 (w :: rest) c
    drainLoopFuel sid_count fuel r.2.1 r.2.2

/-- The drain loop started with enough fuel for its worst case. -/
def drainLoop (sid_count : Nat) (q : List SidWrite) (c : Nat) : List SidWrite × Nat :=
  drainLoopFuel sid_count q.length q c

/-- `Player::read_from_sid` (player.rs lines 88-95) together with the
worker's handling of the resulting `PlayerCommand::Read` (audio_renderer.rs
lines 325-335): latch `queue_started`, push a `dummy_write`, then the worker
drains the entire queue and answers with the value read from the SID core
(out of scope of the specification, abstracted as 0). -/
def read_from_sid (sid_count : Nat) (s : PlayerState) (reg cycles : Nat) : PlayerState × Nat :=
  let s1 := { s with queue_started := true }
  let s2 := dummy_write s1 reg cycles
  let d := drainLoop sid_count s2.queue s2.cycles_in_buffer
  ({ s2 with queue := d.1, cycles_in_buffer := d.2 }, 0)

/-- The public operations of `Player` (player.rs).  Operations that only send
a `PlayerCommand` over the channel to the worker (reset, digiboost, filter
bias, model, clock, position, sampling method) do not touch the queue, the
counter or the flags; their configuration effect inside the worker is
modelled separately by `process_player_command_config`. -/
inductive PlayerOp where
  | hasMaxData
  | hasMinData
  | startDraining
  | writeToSid (reg data cycles : Nat)
  | readFromSid (sid_count reg cycles : Nat)
  | flush
  | reset
  | enableDigiboost (enabled : Bool)
  | setFilterBias (v : Int)
  | setModel (m : Int)
  | setClock (c : Int)
  | setSidCount (n : Nat)
  | setPosition (p : Nat)
  | setSamplingMethod (m : Nat)
  | setAudioDevice
deriving Repr, DecidableEq

/-- The effect of each `Player` operation on the shared pacing state.
`set_sid_count` and `set_audio_device` both call `clear_queue` (player.rs
lines 127-132 and 142-145); `flush` calls `clear_queue` and latches
`aborted`. -/
def applyPlayerOp : PlayerOp → PlayerState → PlayerState
  | .hasMaxData, s => (has_max_data_in_buffer s).2
  | .hasMinData, s => s
  | .startDraining, s => start_draining s
  | .writeToSid reg data cycles, s => write_to_sid s reg data cycles
  | .readFromSid sid_count reg cycles, s => (read_from_sid sid_count s reg cycles).1
  | .flush, s => flush s
  | .reset, s => s
  | .enableDigiboost _, s => s
  | .setFilterBias _, s => s
  | .setModel _, s => s
  | .setClock _, s => s
  | .setSidCount _, s => clear_queue s
  | .setPosition _, s => s
  | .setSamplingMethod _, s => s
  | .setAudioDevice, s => clear_queue s

/-- The operations that reset `queue_started` via `clear_queue`. -/
def PlayerOp.clearsQueue : PlayerOp → Bool
  | .flush => true
  | .setSidCount _ => true
  | .setAudioDevice => true
  | _ => false

/-- The operation that triggers the worker's synchronous drain. -/
def PlayerOp.isRead : PlayerOp → Bool
  | .readFromSid _ _ _ => true
  | _ => false

/-- Well-formedness of the shared state: every queued write consists of a u8
register, a u8 data byte and a u16 cycle count, and the queue respects the
ring capacity. -/
def WF (s : PlayerState) : Prop :=
  (∀ w ∈ s.queue, w.reg ≤ 255 ∧ w.data ≤ 255 ∧ w.cycles ≤ 65535) ∧
  s.queue.length ≤ SID_WRITES_BUFFER_SIZE

/-- The pacing invariant of the spec: the counter equals the cycles pending
in the queue. -/
def Inv (s : PlayerState) : Prop :=
  s.cycles_in_buffer = cycSum s.queue

/-- Per-operation side conditions: an enqueue must find the ring below
capacity and carry in-range u8/u16 arguments. -/
def opOk : PlayerOp → PlayerState → Prop
  | .writeToSid reg data cycles, s =>
      s.queue.length < SID_WRITES_BUFFER_SIZE ∧ reg ≤ 255 ∧ data ≤ 255 ∧ cycles ≤ 65535
  | .readFromSid _ _ cycles, s =>
      s.queue.length < SID_WRITES_BUFFER_SIZE ∧ cycles ≤ 65535
  | _, _ => True

/-- A state whose write queue is exactly at the ring capacity, with the
counter matching the queued cycles (65536 one-cycle writes). -/
def c2FullState : PlayerState :=
  { queue := List.replicate 65536 { reg := 0, data := 0, cycles := 1 },
    cycles_in_buffer := 65536, queue_started := true, aborted := false }

/-- A state with one queued five-cycle write and a matching counter. -/
def c2SmallState : PlayerState :=
  { queue := [{ reg := 0, data := 0, cycles := 5 }], cycles_in_buffer := 5,
    queue_started := true, aborted := false }

/-- The `Command` enum of sid_device_server.rs (lines 52-75). -/
inductive Command where
  | Flush
  | TrySetSidCount
  | Mute
  | TryReset
  | TryDelay
  | TryWrite
  | TryRead
  | GetVersion
  | TrySetSampling
  | TrySetClock
  | GetConfigCount
  | GetConfigInfo
  | SetSidPosition
  | SetSidLevel
  | TrySetSidModel
  | SetDelay
  | SetFadeIn
  | SetFadeOut
  | SetPsidHeader
  | Unknown
deriving Repr, DecidableEq

/-- `Command::from_u8` (sid_device_server.rs lines 77-102). -/
def Command.from_u8 : Nat → Command
  | 0 => .Flush
  | 1 => .TrySetSidCount
  | 2 => .Mute
  | 3 => .TryReset
  | 4 => .TryDelay
  | 5 => .TryWrite
  | 6 => .TryRead
  | 7 => .GetVersion
  | 8 => .TrySetSampling
  | 9 => .TrySetClock
  | 10 => .GetConfigCount
  | 11 => .GetConfigInfo
  | 12 => .SetSidPosition
  | 13 => .SetSidLevel
  | 14 => .TrySetSidModel
  | 15 => .SetDelay
  | 16 => .SetFadeIn
  | 17 => .SetFadeOut
  | 18 => .SetPsidHeader
  | _ => .Unknown

/-- The `CommandResponse` enum of sid_device_server.rs (lines 40-50). -/
inductive CommandResponse where
  | Ok
  | Busy
  | Error
  | Read
  | Version
  | Count
  | Info
deriving Repr, DecidableEq

/-- The discriminant byte of a `CommandResponse`. -/
def CommandResponse.toNat : CommandResponse → Nat
  | .Ok => 0
  | .Busy => 1
  | .Error => 2
  | .Read => 3
  | .Version => 4
  | .Count => 5
  | .Info => 6

/-- One received frame as seen by `process_command` (sid_device_server.rs
lines 259-416), which is handed the slice `data[0..size]` read from the
socket with `size >= 4`: `cmd = data[0]`, `sidNumber = data[1]`,
`dataLength = (data[2] << 8) + data[3]`, and `buffer = data[4..size]` — every
payload byte present in the receive buffer, which can be more than the
declared `dataLength`. -/
structure Frame where
  cmd : Nat
  sidNumber : Nat
  dataLength : Nat
  buffer : List Nat
deriving Repr, DecidableEq

/-- A `TryWrite` frame carrying 46 writes of 65535 cycles each (payload
`46 * 4 = 184` bytes), enough to push `cycles_in_buffer` past
`MAX_CYCLES_IN_BUFFER` in one command. -/
def c3BigFrame : Frame :=
  { cmd := 5, sidNumber := 0, dataLength := 184,
    buffer := (List.replicate 46 [255, 255, 0, 0]).flatten }

/-- An empty `TryWrite` frame used to probe for back-pressure. -/
def c3ProbeFrame : Frame :=
  { cmd := 5, sidNumber := 0, dataLength := 0, buffer := [] }

/-- The per-connection server state: the player's shared pacing state plus
the SID count last configured for the worker (config.sid_count, initially 1). -/
structure ServerState where
  player : PlayerState
  sid_count : Nat
deriving Repr, DecidableEq

/-- The state of a fresh connection (`SidDeviceServerThread::new`). -/
def initServer : ServerState :=
  { player := initPlayer, sid_count := 1 }

/-- The writes parsed by the loop of `process_writes` (sid_device_server.rs
lines 418-427): consecutive 4-byte groups `(cyc_hi, cyc_lo, reg, val)`; a
trailing group of fewer than 4 bytes is not parsed as a write. -/
def parseWrites : List Nat → List SidWrite
  | c_hi :: c_lo :: reg :: val :: rest =>
      { reg := reg, data := val, cycles := c_hi * 256 + c_lo } :: parseWrites rest
  | _ => []

/-- The enqueue loop of `process_writes`: one `write_to_sid` per parsed
4-byte group, in order. -/
def pushWrites (s : PlayerState) : List Nat → PlayerState
  | c_hi :: c_lo :: reg :: val :: rest =>
      pushWrites (write_to_sid s reg val (c_hi * 256 + c_lo)) rest
  | _ => s

/-- `SidDeviceServerThread::process_writes` (sid_device_server.rs lines
418-440): enqueue one write per complete 4-byte group of `data`, then start
draining when `has_min_data_in_buffer`, and finally, when exactly 3 bytes
remain (`data.len() == write_data_length + 3`), treat them as
`(cyc_hi, cyc_lo, reg)` and perform the blocking `read_from_sid`.  Returns
the new player state and the read value (0 when no read was performed). -/
def process_writes (sid_count : Nat) (p : PlayerState) (data : List Nat) : PlayerState × Nat :=
  let wdl := data.length / 4 * 4
  let p1 := pushWrites p data
  let p2 := if has_min_data_in_buffer p1 then start_draining p1 else p1
  if data.length = wdl + 3 then
    let cycles := data.getD wdl 0 * 256 + data.getD (wdl + 1) 0
    let reg := data.getD (wdl + 2) 0
    read_from_sid sid_count p2 reg cycles
  else (p2, 0)

/-- The register of the no-op write synthesized by the `TryDelay` branch of
`process_command` (sid_device_server.rs line 319): `0x1e + sid_number * 0x20`
computed in `u8` arithmetic, which wraps modulo 256 (release-build overflow
semantics). -/
def tryDelayReg (sid_number : Nat) : Nat :=
  (0x1e + sid_number % 256 * 0x20) % 256

/-- The config-info string for `sid_number == 0` (sid_device_server.rs line
350), as bytes including the trailing NUL. -/
def configInfo6581 : List Nat :=
  "reSID Device (6581)".toList.map Char.toNat ++ [0]

/-- The config-info string for `sid_number != 0` (sid_device_server.rs line
352), as bytes including the trailing NUL. -/
def configInfo8580 : List Nat :=
  "reSID Device (8580)".toList.map Char.toNat ++ [0]

/-- `SidDeviceServerThread::process_command` (sid_device_server.rs lines
259-416).  `audio_error` is the process-wide `AUDIO_ERROR` flag observed via
`player.has_error()` (set only by the audio callback, never by this code).
Returns the new state, the response bytes written to the socket, and whether
the socket was shut down.  The commands that only forward a `PlayerCommand`
to the worker (`TryReset`, `TrySetSidModel`, `TrySetClock`, `SetSidPosition`,
`TrySetSampling`) leave the pacing state unchanged here; their configuration
effect is modelled by `process_player_command_config`. -/
def process_command (audio_error : Bool) (s : ServerState) (f : Frame) :
    ServerState × List Nat × Bool :=
  let command := Command.from_u8 f.cmd
  if command = Command.Unknown then
    (s, [CommandResponse.Error.toNat], false)
  else if f.dataLength > f.buffer.length ∧ command ≠ Command.Flush then
    (s, [CommandResponse.Error.toNat], false)
  else
    match command with
    | .TryWrite =>
      if audio_error then (s, [], true)
      else if f.dataLength % 4 ≠ 0 then (s, [CommandResponse.Error.toNat], false)
      else
        let m := has_max_data_in_buffer s.player
        if m.1 = false then
          let p := if 4 ≤ f.dataLength then (process_writes s.sid_count m.2 f.buffer).1 else m.2
          ({ s with player := p }, [CommandResponse.Ok.toNat], false)
        else
          ({ s with player := m.2 }, [CommandResponse.Busy.toNat], false)
    | .TryRead =>
      if audio_error then (s, [], true)
      else if f.dataLength < 3 ∨ (f.dataLength - 3) % 4 ≠ 0 then
        (s, [CommandResponse.Error.toNat], false)
      else
        let m := has_max_data_in_buffer s.player
        if m.1 = false then
          let r := process_writes s.sid_count m.2 f.buffer
          ({ s with player := r.1 }, [CommandResponse.Read.toNat, r.2], false)
        else
          ({ s with player := m.2 }, [CommandResponse.Busy.toNat], false)
    | .TryDelay =>
      if audio_error then (s, [], true)
      else if f.dataLength < 2 then (s, [CommandResponse.Error.toNat], false)
      else
        let m := has_max_data_in_buffer s.player
        if m.1 = false then
          let cycles := f.buffer.getD 0 0 * 256 + f.buffer.getD 1 0
          let p1 := write_to_sid m.2 (tryDelayReg f.sidNumber) 0 cycles
          let p2 := if has_min_data_in_buffer p1 then start_draining p1 else p1
          ({ s with player := p2 }, [CommandResponse.Ok.toNat], false)
        else
          ({ s with player := m.2 }, [CommandResponse.Busy.toNat], false)
    | .TryReset =>
      if f.dataLength = 1 then
        let m := has_max_data_in_buffer s.player
        if m.1 = false then
          ({ s with player := m.2 }, [CommandResponse.Ok.toNat], false)
        else
          ({ s with player := m.2 }, [CommandResponse.Busy.toNat], false)
      else (s, [CommandResponse.Error.toNat], false)
    | .GetVersion => (s, [CommandResponse.Version.toNat, PROTOCOL_VERSION], false)
    | .GetConfigCount => (s, [CommandResponse.Count.toNat, NUMBER_OF_DEVICES], false)
    | .GetConfigInfo =>
      (s, CommandResponse.Info.toNat :: f.sidNumber % 2 ::
          (if f.sidNumber = 0 then configInfo6581 else configInfo8580), false)
    | .Flush => ({ s with player := flush s.player }, [CommandResponse.Ok.toNat], false)
    | .TrySetSidCount =>
      if 0 < f.sidNumber ∧ f.sidNumber ≤ 8 then
        ({ s with player := clear_queue s.player, sid_count := f.sidNumber },
         [CommandResponse.Ok.toNat], false)
      else (s, [CommandResponse.Error.toNat], false)
    | .TrySetSidModel =>
      if f.dataLength = 1 then (s, [CommandResponse.Ok.toNat], false)
      else (s, [CommandResponse.Error.toNat], false)
    | .TrySetClock =>
      if f.dataLength = 1 then (s, [CommandResponse.Ok.toNat], false)
      else (s, [CommandResponse.Error.toNat], false)
    | .SetSidPosition =>
      if f.dataLength = 1 then (s, [CommandResponse.Ok.toNat], false)
      else (s, [CommandResponse.Error.toNat], false)
    | .TrySetSampling =>
      if f.dataLength = 1 then (s, [CommandResponse.Ok.toNat], false)
      else (s, [CommandResponse.Error.toNat], false)
    | _ => (s, [CommandResponse.Ok.toNat], false)

/-- Iterated command processing (one TCP session, no audio error). -/
def steps (s : ServerState) : List Frame → ServerState
  | [] => s
  | f :: rest => steps (process_command false s f).1 rest

/-- A server state reachable from a fresh connection by a sequence of
frames. -/
def Reachable (s : ServerState) : Prop :=
  ∃ l, steps initServer l = s

/-- The pacing latch invariant: whenever the queue holds at least the minimum
amount of data the drain has been started.  The over-threshold condition of
`has_max_data_in_buffer` implies the minimum one, so in states satisfying
this invariant a `BUSY` answer never flips `queue_started`. -/
def StartedInv (s : ServerState) : Prop :=
  has_min_data_in_buffer s.player = true → s.player.queue_started = true

/-- The `chip_model` enum of the resid crate. -/
inductive ChipModel where
  | MOS6581
  | MOS8580
deriving Repr, DecidableEq

/-- The `sampling_method` enum of the resid crate. -/
inductive SamplingMethod where
  | SAMPLE_INTERPOLATE
  | SAMPLE_RESAMPLE
deriving Repr, DecidableEq

/-- The `PlayerCommand` enum of audio_renderer.rs (lines 51-64). -/
inductive PlayerCommand where
  | SetClock
  | SetModel
  | SetSidCount
  | SetPosition
  | SetSamplingMethod
  | EnableDigiboost
  | DisableDigiboost
  | SetFilterBias6581
  | SetSamplingFrequency
  | Reset
  | Read
deriving Repr, DecidableEq

/-- The worker's `Config` (audio_renderer.rs lines 74-88).  `sid_count` is an
`i32`; `filter_bias_6581: f64` is floating point and is not modelled (no
claim concerns it). -/
structure RConfig where
  sample_rate : Nat
  sampling_method : SamplingMethod
  clock : Nat
  sid_count : Int
  chip_model : List ChipModel
  position_left : List Int
  position_right : List Int
  digiboost : Bool
  config_changed : Bool
deriving Repr, DecidableEq

/-- `AudioRenderer::create_default_config` (audio_renderer.rs lines 355-367). -/
def create_default_config (sample_rate : Nat) : RConfig :=
  { sample_rate := sample_rate
    sampling_method := .SAMPLE_RESAMPLE
    clock := PAL_CLOCK
    sid_count := 1
    chip_model := [.MOS6581]
    position_left := [0]
    position_right := [0]
    digiboost := false
    config_changed := false }

/-- The signed interpretation of the low byte of an i32, i.e.
`((param1 & 0xff) as i8) as i32` (audio_renderer.rs line 420): `& 0xff` on a
two's-complement i32 is `Int.emod 256`, then values `>= 128` represent the
negatives. -/
def lowByteAsI8 (param1 : Int) : Int :=
  let b := param1.emod 256
  if b < 128 then b else b - 256

/-- `process_player_command` (audio_renderer.rs lines 378-485) restricted to
its effect on the worker `Config`.  `param1 >> 8` on an `i32` is an
arithmetic shift, i.e. flooring division by 256 (`Int.fdiv`).  Effects on the
live SID instances (digiboost voice mask and input, filter bias, sampling
frequency) are effects on the out-of-scope SID core and are not modelled;
`config.filter_bias_6581` is floating point and also not modelled.  Arms that
`unwrap()` their parameter are only ever sent a `Some` by `Player`; the
`None` case (a panic in Rust) is modelled as a no-op. -/
def process_player_command_config (cfg : RConfig) (command : PlayerCommand)
    (param1 : Option Int) : RConfig :=
  match command with
  | .SetModel =>
    match param1 with
    | some param1 =>
      let model := param1.emod 256
      let sid_number := param1.fdiv 256
      let cfg :=
        if 0 ≤ sid_number ∧ sid_number < cfg.sid_count then
          { cfg with chip_model :=
              (cfg.chip_model.set sid_number.toNat
                (if model = 0 then .MOS6581 else .MOS8580)) }
        else cfg
      { cfg with config_changed := true }
    | none => cfg
  | .SetClock =>
    match param1 with
    | some clock =>
      { cfg with clock := if clock = 0 then PAL_CLOCK else NTSC_CLOCK, config_changed := true }
    | none => cfg
  | .SetSidCount =>
    match param1 with
    | some param1 =>
      let count := param1.toNat
      { cfg with
        sid_count := (count : Int)
        chip_model := List.replicate count (cfg.chip_model.headD .MOS6581)
        position_left := List.replicate count 0
        position_right := List.replicate count 0
        config_changed := true }
    | none => cfg
  | .SetPosition =>
    match param1 with
    | some param1 =>
      let position := lowByteAsI8 param1
      let sid_number := param1.fdiv 256
      if 0 ≤ sid_number ∧ sid_number < cfg.sid_count then
        { cfg with
          position_left := cfg.position_left.set sid_number.toNat
            (if position ≤ 0 then 100 else 100 - position)
          position_right := cfg.position_right.set sid_number.toNat
            (if 0 ≤ position then 100 else 100 + position) }
      else cfg
    | none => cfg
  | .SetSamplingMethod =>
    match param1 with
    | some m =>
      { cfg with
        sampling_method := if m = 1 then .SAMPLE_RESAMPLE else .SAMPLE_INTERPOLATE
        config_changed := true }
    | none => cfg
  | .EnableDigiboost => { cfg with digiboost := true }
  | .DisableDigiboost => { cfg with digiboost := false }
  | .SetFilterBias6581 => cfg
  | .SetSamplingFrequency => cfg
  | .Reset => { cfg with config_changed := true }
  | .Read => cfg

/-- The subsequence of `(reg, data)` pairs of the write events addressed to
SID index `i`, in order. -/
def writeTrace (i : Nat) : List SidEvent → List (Nat × Nat)
  | [] => []
  | SidEvent.write j reg data :: rest =>
      if j = i then (reg, data) :: writeTrace i rest else writeTrace i rest
  | SidEvent.advance _ :: rest => writeTrace i rest

/-- Whether a queued write is delivered (`cycles > 0`) and targets SID index
`i` under `sid_count` configured SIDs. -/
def targets (sid_count i : Nat) (w : SidWrite) : Bool :=
  decide (0 < w.cycles) && decide (min (w.reg / 32) (sid_count - 1) = i)

theorem cycSum_append (l₁ l₂ : List SidWrite) :
    cycSum (l₁ ++ l₂) = cycSum l₁ + cycSum l₂ := by
  induction l₁ with
  | nil => simp [cycSum]
  | cons w rest ih => simp [cycSum, ih]; omega

theorem cycSum_replicate (n : Nat) (w : SidWrite) :
    cycSum (List.replicate n w) = n * w.cycles := by
  induction n with
  | zero => simp [cycSum]
  | succ n ih => simp [List.replicate_succ, cycSum, ih]; ring

theorem cycSum_le (l : List SidWrite) (b : Nat) (h : ∀ w ∈ l, w.cycles ≤ b) :
    cycSum l ≤ l.length * b := by
  induction l with
  | nil => simp [cycSum]
  | cons w rest ih =>
    have hw := h w (by simp)
    have hr := ih (fun w hw => h w (by simp [hw]))
    simp only [cycSum, List.length_cons]
    calc w.cycles + cycSum rest ≤ b + rest.length * b := by omega
    _ = (rest.length + 1) * b := by ring

theorem deliveredEvents_append (sc : Nat) (l₁ l₂ : List SidWrite) :
    deliveredEvents sc (l₁ ++ l₂) = deliveredEvents sc l₁ ++ deliveredEvents sc l₂ := by
  induction l₁ with
  | nil => simp [deliveredEvents]
  | cons w rest ih => simp [deliveredEvents, ih]

theorem writeTrace_deliveredEvents (sc i : Nat) (l : List SidWrite) :
    writeTrace i (deliveredEvents sc l) =
      (l.filter (targets sc i)).map (fun w => (w.reg % 32, w.data)) := by
  induction l with
  | nil => simp [deliveredEvents, writeTrace]
  | cons w rest ih =>
    simp only [deliveredEvents, popEvents, targets]
    by_cases hc : 0 < w.cycles
    · by_cases hi : min (w.reg / 32) (sc - 1) = i
      · simp [hc, hi, writeTrace, List.filter, targets, ih]
      · simp [hc, hi, writeTrace, List.filter, targets, ih]
    · simp [hc, writeTrace, List.filter, targets, ih]

/-- Characterization of the pop loop of `generate_sample`: it consumes some
prefix of the queue, leaves the corresponding suffix, emits exactly the
events of the consumed prefix, and accumulates exactly the cycles of the
consumed prefix onto the running total. -/
theorem generate_sample_loop_spec (sc : Nat) (q : List SidWrite) (t : Nat) :
    ∃ k, (generate_sample_loop sc q t).2.2 = q.drop k ∧
         (generate_sample_loop sc q t).1 = deliveredEvents sc (q.take k) ∧
         (generate_sample_loop sc q t).2.1 = t + cycSum (q.take k) := by
  induction q generalizing t with
  | nil => exact ⟨0, by simp [generate_sample_loop, deliveredEvents, cycSum]⟩
  | cons w rest ih =>
    by_cases ht : t < CYCLES_PER_SAMPLE
    · obtain ⟨k, hq, he, hc⟩ := ih (t + w.cycles)
      refine ⟨k + 1, ?_, ?_, ?_⟩
      · simpa [generate_sample_loop, ht] using hq
      · simpa [generate_sample_loop, ht, deliveredEvents] using he
      · simp only [generate_sample_loop, ht, if_pos, List.take_succ_cons, cycSum]
        omega
    · exact ⟨0, by simp [generate_sample_loop, ht, deliveredEvents, cycSum]⟩

/-- The pop loop always consumes at least one write from a non-empty queue
(on entry `total_cycles = 0 < CYCLES_PER_SAMPLE`), so the remaining queue
shrinks strictly. -/
theorem generate_sample_loop_length (sc : Nat) (q : List SidWrite) (t : Nat) :
    (generate_sample_loop sc q t).2.2.length ≤ q.length := by
  obtain ⟨k, hq, -, -⟩ := generate_sample_loop_spec sc q t
  simp [hq]

theorem generate_sample_progress (sc : Nat) (w : SidWrite) (rest : List SidWrite) (c : Nat) :
    (generate_sample sc 0 (w :: rest) c).2.1.length < (w :: rest).length := by
  have h0 : ¬ (0 > AUDIO_STREAM_MAX_LIMIT) := by simp
  have ht : (0 : Nat) < CYCLES_PER_SAMPLE := by norm_num [CYCLES_PER_SAMPLE]
  have := generate_sample_loop_length sc rest (0 + w.cycles)
  simp only [generate_sample, h0, if_false, generate_sample_loop, ht, if_pos]
  simp only [List.length_cons]
  omega

/-- Characterization of `generate_sample` below the PCM high-water mark. -/
theorem generate_sample_spec (sc al : Nat) (q : List SidWrite) (c : Nat)
    (hal : al ≤ AUDIO_STREAM_MAX_LIMIT) :
    ∃ k, (generate_sample sc al q c).2.1 = q.drop k ∧
         (generate_sample sc al q c).1 = deliveredEvents sc (q.take k) ∧
         (generate_sample sc al q c).2.2 = c - cycSum (q.take k) := by
  have h0 : ¬ (al > AUDIO_STREAM_MAX_LIMIT) := by omega
  obtain ⟨k, hq, he, hc⟩ := generate_sample_loop_spec sc q 0
  exact ⟨k, by simp [generate_sample, h0, hq, he, hc]⟩

/-- The worker's synchronous drain empties the queue and removes exactly the
queued cycles from the counter (saturating at zero). -/
theorem drainLoopFuel_spec (sc : Nat) (fuel : Nat) :
    ∀ (q : List SidWrite) (c : Nat), q.length ≤ fuel →
      drainLoopFuel sc fuel q c = ([], c - cycSum q) := by
  induction fuel with
  | zero =>
    intro q c h
    have : q = [] := List.length_eq_zero.mp (Nat.le_zero.mp h)
    subst this
    simp [drainLoopFuel, cycSum]
  | succ fuel ih =>
    intro q c h
    match q with
    | [] => simp [drainLoopFuel, cycSum]
    | w :: rest =>
      obtain ⟨k, hq, -, hc⟩ := generate_sample_spec sc 0 (w :: rest) c (by norm_num)
      have hlt := generate_sample_progress sc w rest c
      have hlen : (generate_sample sc 0 (w :: rest) c).2.1.length ≤ fuel := by
        simp only [List.length_cons] at hlt h
        omega
      have hsplit : cycSum (List.take k (w :: rest)) + cycSum (List.drop k (w :: rest)) =
          cycSum (w :: rest) := by
        rw [← cycSum_append, List.take_append_drop]
      simp only [drainLoopFuel, hq, hc]
      rw [ih _ _ (by rw [← hq]; exact hlen), Nat.sub_sub, hsplit]

theorem drainLoop_spec (sc : Nat) (q : List SidWrite) (c : Nat) :
    drainLoop sc q c = ([], c - cycSum q) :=
  drainLoopFuel_spec sc q.length q c le_rfl

theorem write_to_sid_flags (s : PlayerState) (reg data cycles : Nat) :
    (write_to_sid s reg data cycles).queue_started = s.queue_started ∧
    (write_to_sid s reg data cycles).aborted = s.aborted := by
  simp [write_to_sid]

theorem read_from_sid_started (sc : Nat) (s : PlayerState) (reg cycles : Nat) :
    (read_from_sid sc s reg cycles).1.queue_started = true := by
  simp [read_from_sid, dummy_write, write_to_sid]

theorem has_min_start_draining (p : PlayerState) :
    has_min_data_in_buffer (start_draining p) = has_min_data_in_buffer p := by
  simp [has_min_data_in_buffer, start_draining]

theorem start_draining_eq (p : PlayerState) (h : p.queue_started = true) :
    start_draining p = p := by
  cases p
  simp only [start_draining]
  simp_all

theorem hasMaxCond_implies_min (p : PlayerState) (h : hasMaxCond p = true) :
    has_min_data_in_buffer p = true := by
  simp only [hasMaxCond, has_min_data_in_buffer, SID_WRITES_BUFFER_SIZE, MAX_CYCLES_IN_BUFFER,
    MIN_CYCLES_TO_DRAIN_QUEUE, MIN_WRITES_TO_DRAIN_QUEUE, Bool.or_eq_true, decide_eq_true_eq] at *
  omega

/-- C6: `has_max_data_in_buffer()` returns true if and only if the write
queue length exceeds half its capacity (65536 / 2) or `cycles_in_buffer`
exceeds `MAX_CYCLES_IN_BUFFER = 63*312*50*3`; a true result sets
`queue_started` (and changes nothing else), a false result leaves the whole
state — in particular `queue_started` — unchanged. -/
theorem C6_has_max_data_contract (s : PlayerState) :
    ((has_max_data_in_buffer s).1 = true ↔
      (s.queue.length > 65536 / 2 ∨ s.cycles_in_buffer > 63 * 312 * 50 * 3)) ∧
    ((has_max_data_in_buffer s).1 = true →
      (has_max_data_in_buffer s).2 = { s with queue_started := true }) ∧
    ((has_max_data_in_buffer s).1 = false → (has_max_data_in_buffer s).2 = s) := by
  by_cases h1 : s.queue.length > 65536 / 2 <;>
    by_cases h2 : s.cycles_in_buffer > 63 * 312 * 50 * 3 <;>
      simp [has_max_data_in_buffer, hasMaxCond, start_draining, SID_WRITES_BUFFER_SIZE,
        MAX_CYCLES_IN_BUFFER, h1, h2]

/-- Witness for C6 at a concrete state: the fresh player is below both
thresholds, so `has_max_data_in_buffer` answers false and changes nothing. -/
theorem C6_witness :
    (has_max_data_in_buffer initPlayer).1 = false ∧
    (has_max_data_in_buffer initPlayer).2 = initPlayer :=
  ⟨by decide, (C6_has_max_data_contract initPlayer).2.2 (by decide)⟩

/-- C10: the `TryDelay` no-op register is `0x1e + sid_number * 0x20` in u8
(wrapping) arithmetic.  For `sid_number ≤ 7` the value fits in a byte and
encodes the no-op register `0x1e` of SID `sid_number` (upper three bits
`sid_number`, lower five bits `0x1e`); for `sid_number ≥ 8` the
multiplication overflows u8, the result is `(0x1e + sid_number*0x20) mod
256`, whose encoded SID index differs from `sid_number`, and the write is
delivered to index `min(reg >> 5, sid_count - 1) ≤ 7 < sid_number`, so it
never addresses SID number `sid_number`. -/
theorem C10_tryDelay_register (sid_number : Nat) (h : sid_number ≤ 255) :
    tryDelayReg sid_number = (0x1e + sid_number * 0x20) % 256 ∧
    (sid_number ≤ 7 →
      0x1e + sid_number * 0x20 < 256 ∧
      tryDelayReg sid_number = 0x1e + sid_number * 0x20 ∧
      tryDelayReg sid_number / 32 = sid_number ∧
      tryDelayReg sid_number % 32 = 0x1e) ∧
    (8 ≤ sid_number →
      256 ≤ 0x1e + sid_number * 0x20 ∧
      tryDelayReg sid_number / 32 ≠ sid_number ∧
      ∀ sid_count, 1 ≤ sid_count → sid_count ≤ 8 →
        min (tryDelayReg sid_number / 32) (sid_count - 1) ≠ sid_number) := by
  have hm : sid_number % 256 = sid_number := Nat.mod_eq_of_lt (by omega)
  unfold tryDelayReg
  rw [hm]
  refine ⟨rfl, fun h7 => ⟨by omega, by omega, by omega, by omega⟩,
    fun h8 => ⟨by omega, by omega, ?_⟩⟩
  intro sid_count h1 h8c
  have hmin := Nat.min_le_right ((0x1e + sid_number * 0x20) % 256 / 32) (sid_count - 1)
  omega

/-- Witness for C10: `sid_number = 3` yields register `0x7e` (SID 3, offset
`0x1e`); `sid_number = 8` wraps and its register no longer encodes SID 8. -/
theorem C10_witness :
    tryDelayReg 3 / 32 = 3 ∧ tryDelayReg 3 % 32 = 0x1e ∧ tryDelayReg 8 / 32 ≠ 8 :=
  ⟨((C10_tryDelay_register 3 (by decide)).2.1 (by decide)).2.2.1,
   ((C10_tryDelay_register 3 (by decide)).2.1 (by decide)).2.2.2,
   ((C10_tryDelay_register 8 (by decide)).2.2 (by decide)).2.1⟩

/-- C5 fails as stated: command byte 2 (`Mute`) is not in the protocol table
`{0, 1, 3-12, 14-18}`, yet `Command::from_u8` maps it to `Command::Mute`,
which falls into the catch-all arm of `process_command` and is answered with
the single byte OK (0), not ERROR (2).  Likewise byte 13 (`SetSidLevel`). -/
theorem C5_counterexample :
    (process_command false initServer { cmd := 2, sidNumber := 0, dataLength := 0, buffer := [] }).2
      = ([CommandResponse.Ok.toNat], false) ∧
    (process_command false initServer { cmd := 13, sidNumber := 0, dataLength := 0, buffer := [] }).2
      = ([CommandResponse.Ok.toNat], false) ∧
    CommandResponse.Ok.toNat ≠ CommandResponse.Error.toNat := by
  refine ⟨by decide, by decide, by decide⟩

/-- C5 amended: for every received frame whose command byte is not one of the
19 values `Command::from_u8` recognises (i.e. every byte ≥ 19, since bytes 2
and 13 are recognised as `Mute`/`SetSidLevel` and acknowledged with OK), the
session responds with the single byte ERROR (2), leaves its state unchanged
and keeps the connection open (no socket shutdown), regardless of the audio
error flag. -/
theorem C5_unknown_command (audio_error : Bool) (s : ServerState) (f : Frame)
    (h : 18 < f.cmd) :
    process_command audio_error s f = (s, [CommandResponse.Error.toNat], false) := by
  obtain ⟨k, hk⟩ : ∃ k, f.cmd = k + 19 := ⟨f.cmd - 19, by omega⟩
  have hcmd : Command.from_u8 f.cmd = Command.Unknown := by rw [hk]; rfl
  simp [process_command, hcmd]

/-- Witness for C5 at the first unknown byte: command 19 answers ERROR with
the connection open and the state intact. -/
theorem C5_witness :
    process_command false initServer { cmd := 19, sidNumber := 0, dataLength := 0, buffer := [] }
      = (initServer, [CommandResponse.Error.toNat], false) :=
  C5_unknown_command false initServer { cmd := 19, sidNumber := 0, dataLength := 0, buffer := [] }
    (by decide)

/-- C9 fails as stated: with the default config (`sid_count = 1`) a
`SetPosition` for `sid_number = 0` carrying the one-byte signed position
`0x7f = +127` stores `100 - 127 = -27` into `position_left[0]`, which is not
in `[0, 100]`. -/
theorem C9_counterexample :
    (process_player_command_config (create_default_config 48000) .SetPosition
        (some 127)).position_left = [-27] ∧
    ¬ (0 ≤ (-27 : Int)) := by
  refine ⟨by decide, by decide⟩

/-- C9 amended: after a `SetPosition` command carrying a `sid_number` in
range `0..sid_count` and a one-byte signed position value in `[-100, 100]`
(the range the protocol table specifies for `SetSidPosition`), the updated
`position_left[sid_number]` and `position_right[sid_number]` both lie in
`[0, 100]`.  For bytes encoding values outside `[-100, 100]` the stored value
can leave that interval, as the counterexample shows. -/
theorem C9_position_in_range (cfg : RConfig) (sid b : Nat)
    (hb : b < 256)
    (hsid : (sid : Int) < cfg.sid_count)
    (hlenl : sid < cfg.position_left.length)
    (hlenr : sid < cfg.position_right.length)
    (hlo : -100 ≤ lowByteAsI8 (sid * 256 + b))
    (hhi : lowByteAsI8 (sid * 256 + b) ≤ 100) :
    ∃ vl vr,
      (process_player_command_config cfg .SetPosition
          (some ((sid : Int) * 256 + b))).position_left.get? sid = some vl ∧
      (process_player_command_config cfg .SetPosition
          (some ((sid : Int) * 256 + b))).position_right.get? sid = some vr ∧
      0 ≤ vl ∧ vl ≤ 100 ∧ 0 ≤ vr ∧ vr ≤ 100 := by
  have hcast : ((sid * 256 + b : Nat) : Int) = (sid : Int) * 256 + b := by push_cast; ring
  have hfd : ((sid : Int) * 256 + b).fdiv 256 = sid := by
    have h1 : (((sid * 256 + b) / 256 : Nat) : Int)
        = ((sid * 256 + b : Nat) : Int).fdiv ((256 : Nat) : Int) := Int.ofNat_fdiv _ _
    have h2 : (sid * 256 + b) / 256 = sid := by omega
    have h256 : ((256 : Nat) : Int) = (256 : Int) := by norm_num
    rw [h2, h256] at h1
    rw [← hcast]
    exact h1.symm
  have htn : ((sid : Int)).toNat = sid := Int.toNat_natCast sid
  simp only [process_player_command_config, hfd, htn]
  have hguard : (0 : Int) ≤ sid ∧ (sid : Int) < cfg.sid_count := ⟨by omega, hsid⟩
  rw [if_pos hguard]
  refine ⟨if lowByteAsI8 ((sid : Int) * 256 + b) ≤ 0 then 100
            else 100 - lowByteAsI8 ((sid : Int) * 256 + b),
          if 0 ≤ lowByteAsI8 ((sid : Int) * 256 + b) then 100
            else 100 + lowByteAsI8 ((sid : Int) * 256 + b),
          ?_, ?_, ?_, ?_, ?_, ?_⟩
  · exact List.get?_set_eq_of_lt _ hlenl
  · exact List.get?_set_eq_of_lt _ hlenr
  · split <;> omega
  · split <;> omega
  · split <;> omega
  · split <;> omega

/-- Witness for C9: position byte `0x9c = -100` on the default config yields
`position_left[0] = 100` and `position_right[0] = 0`, both in `[0, 100]`. -/
theorem C9_witness :
    ∃ vl vr,
      (process_player_command_config (create_default_config 48000) .SetPosition
          (some ((0 : Int) * 256 + 156))).position_left.get? 0 = some vl ∧
      (process_player_command_config (create_default_config 48000) .SetPosition
          (some ((0 : Int) * 256 + 156))).position_right.get? 0 = some vr ∧
      0 ≤ vl ∧ vl ≤ 100 ∧ 0 ≤ vr ∧ vr ≤ 100 :=
  C9_position_in_range (create_default_config 48000) 0 156 (by decide) (by decide)
    (by decide) (by decide) (by decide) (by decide)

/-- C8: processing `PlayerCommand::SetSidCount` with count `n` sets
`sid_count` to `n`, rebuilds `chip_model` as `n` copies of the previous
`chip_model[0]`, rebuilds `position_left` and `position_right` as `n` zeros,
and raises `config_changed`; in particular `sid_count`, `|chip_model|`,
`|position_left|` and `|position_right|` are all equal afterwards. -/
theorem C8_set_sid_count (cfg : RConfig) (n : Nat) (h0 : cfg.chip_model ≠ []) :
    (process_player_command_config cfg .SetSidCount (some (n : Int))).sid_count = (n : Int) ∧
    (process_player_command_config cfg .SetSidCount (some (n : Int))).chip_model
      = List.replicate n (cfg.chip_model.head h0) ∧
    (process_player_command_config cfg .SetSidCount (some (n : Int))).position_left
      = List.replicate n 0 ∧
    (process_player_command_config cfg .SetSidCount (some (n : Int))).position_right
      = List.replicate n 0 ∧
    (process_player_command_config cfg .SetSidCount (some (n : Int))).config_changed = true ∧
    ((process_player_command_config cfg .SetSidCount (some (n : Int))).chip_model.length : Int)
      = (process_player_command_config cfg .SetSidCount (some (n : Int))).sid_count ∧
    ((process_player_command_config cfg .SetSidCount (some (n : Int))).position_left.length : Int)
      = (process_player_command_config cfg .SetSidCount (some (n : Int))).sid_count ∧
    ((process_player_command_config cfg .SetSidCount (some (n : Int))).position_right.length : Int)
      = (process_player_command_config cfg .SetSidCount (some (n : Int))).sid_count := by
  obtain ⟨m, rest, hcm⟩ : ∃ m rest, cfg.chip_model = m :: rest := by
    cases hc : cfg.chip_model with
    | nil => exact absurd hc h0
    | cons m rest => exact ⟨m, rest, rfl⟩
  simp [process_player_command_config, hcm]

/-- Witness for C8: growing the default config to three SIDs replicates its
`MOS6581` first chip model and zeroes both position vectors. -/
theorem C8_witness :
    (process_player_command_config (create_default_config 48000) .SetSidCount
        (some ((3 : Nat) : Int))).sid_count = ((3 : Nat) : Int) ∧
    (process_player_command_config (create_default_config 48000) .SetSidCount
        (some ((3 : Nat) : Int))).chip_model
      = List.replicate 3 ((create_default_config 48000).chip_model.head (by decide)) :=
  ⟨(C8_set_sid_count (create_default_config 48000) 3 (by decide)).1,
   (C8_set_sid_count (create_default_config 48000) 3 (by decide)).2.1⟩

/-- C1 fails as stated: `generate_sample` pops the queued
`SidWrite { reg := 24, data := 15, cycles := 0 }` (the queue is left empty)
but, because its `cycles` field is 0, the guarded block containing the
`sids[..].write(..)` call is skipped and no register write at all is
delivered to the SIDs. -/
theorem C1_counterexample :
    (generate_sample 1 0 [{ reg := 24, data := 15, cycles := 0 }] 0).2.1 = [] ∧
    (generate_sample 1 0 [{ reg := 24, data := 15, cycles := 0 }] 0).1 = [] := by
  refine ⟨by decide, by decide⟩

/-- C1 amended: every `generate_sample` call below the PCM high-water mark
consumes a prefix of the write queue; every consumed write with `cycles > 0`
is delivered as exactly one register write of `(reg & 0x1f, data)` into SID
index `min(reg >> 5, sid_count - 1)` immediately after the SIDs have been
advanced by its cycles (`popEvents`), while consumed writes with
`cycles = 0` are discarded undelivered; consequently, for each SID index,
the sequence of delivered `(reg, val)` pairs equals the queue (submission)
order filtered to delivered writes targeting that index. -/
theorem C1_delivery_order (sid_count audio_len : Nat) (q : List SidWrite) (c : Nat)
    (hal : audio_len ≤ AUDIO_STREAM_MAX_LIMIT) :
    ∃ k, (generate_sample sid_count audio_len q c).2.1 = q.drop k ∧
      (generate_sample sid_count audio_len q c).1 = deliveredEvents sid_count (q.take k) ∧
      ∀ i, writeTrace i (generate_sample sid_count audio_len q c).1 =
        ((q.take k).filter (targets sid_count i)).map (fun w => (w.reg % 32, w.data)) := by
  obtain ⟨k, hq, he, -⟩ := generate_sample_spec sid_count audio_len q c hal
  exact ⟨k, hq, he, fun i => by rw [he, writeTrace_deliveredEvents]⟩

/-- C7: once `queue_started` is true, the only `Player` operations that reset
it to false are `flush`, `set_sid_count` and `set_audio_device` (each via
`clear_queue`); every other operation leaves it unchanged or sets it true. -/
theorem C7_queue_started_monotone (s : PlayerState) (op : PlayerOp) :
    (s.queue_started = true → (applyPlayerOp op s).queue_started = false →
      op.clearsQueue = true) ∧
    (op.clearsQueue = false →
      ((applyPlayerOp op s).queue_started = s.queue_started ∨
       (applyPlayerOp op s).queue_started = true)) := by
  cases op with
  | hasMaxData =>
    by_cases h : hasMaxCond s = true <;>
      simp [applyPlayerOp, PlayerOp.clearsQueue, has_max_data_in_buffer, start_draining, h]
  | readFromSid sc reg cycles =>
    simp [applyPlayerOp, PlayerOp.clearsQueue, read_from_sid_started]
  | writeToSid reg data cycles =>
    simp [applyPlayerOp, PlayerOp.clearsQueue, write_to_sid]
  | startDraining =>
    simp [applyPlayerOp, PlayerOp.clearsQueue, start_draining]
  | flush => simp [applyPlayerOp, PlayerOp.clearsQueue]
  | setSidCount n => simp [applyPlayerOp, PlayerOp.clearsQueue]
  | setAudioDevice => simp [applyPlayerOp, PlayerOp.clearsQueue]
  | _ => simp [applyPlayerOp, PlayerOp.clearsQueue]

/-- Witness for C7: `reset` (which only sends a command to the worker) leaves
`queue_started` unchanged on the fresh player. -/
theorem C7_witness :
    (applyPlayerOp PlayerOp.reset initPlayer).queue_started = initPlayer.queue_started ∨
    (applyPlayerOp PlayerOp.reset initPlayer).queue_started = true :=
  (C7_queue_started_monotone initPlayer PlayerOp.reset).2 (by decide)

theorem write_to_sid_preserve (s : PlayerState) (reg data cycles : Nat)
    (hwf : WF s) (hinv : Inv s) (hroom : s.queue.length < SID_WRITES_BUFFER_SIZE)
    (hreg : reg ≤ 255) (hdata : data ≤ 255) (hcyc : cycles ≤ 65535) :
    Inv (write_to_sid s reg data cycles) ∧ WF (write_to_sid s reg data cycles) ∧
    (write_to_sid s reg data cycles).cycles_in_buffer = s.cycles_in_buffer + cycles ∧
    (write_to_sid s reg data cycles).queue
      = s.queue ++ [{ reg := reg, data := data, cycles := cycles }] := by
  have hlen : s.queue.length ≤ 65535 := by
    have := hroom
    simp only [SID_WRITES_BUFFER_SIZE] at this
    omega
  have hsum : cycSum s.queue ≤ 65535 * 65535 := by
    calc cycSum s.queue ≤ s.queue.length * 65535 :=
          cycSum_le s.queue 65535 (fun w hw => (hwf.1 w hw).2.2)
    _ ≤ 65535 * 65535 := Nat.mul_le_mul_right _ hlen
  have hbound : s.cycles_in_buffer + cycles < 2 ^ 32 := by
    rw [hinv]
    have : (2 : Nat) ^ 32 = 4294967296 := by norm_num
    omega
  have hq : (write_to_sid s reg data cycles).queue
      = s.queue ++ [{ reg := reg, data := data, cycles := cycles }] := by
    simp [write_to_sid, hroom]
  have hc : (write_to_sid s reg data cycles).cycles_in_buffer
      = s.cycles_in_buffer + cycles :=
    Nat.mod_eq_of_lt hbound
  refine ⟨?_, ⟨?_, ?_⟩, hc, hq⟩
  · unfold Inv
    rw [hq, hc, cycSum_append, hinv]
    simp [cycSum]
  · intro w hw
    rw [hq] at hw
    rcases List.mem_append.mp hw with h | h
    · exact hwf.1 w h
    · simp at h
      subst h
      exact ⟨hreg, hdata, hcyc⟩
  · rw [hq]
    simp only [List.length_append, List.length_cons, List.length_nil, SID_WRITES_BUFFER_SIZE]
    simp only [SID_WRITES_BUFFER_SIZE] at hroom
    omega

theorem worker_generate_preserve (sc al : Nat) (s : PlayerState)
    (hwf : WF s) (hinv : Inv s) :
    Inv (worker_generate_sample sc al s).2 ∧ WF (worker_generate_sample sc al s).2 := by
  by_cases hal : al ≤ AUDIO_STREAM_MAX_LIMIT
  · obtain ⟨k, hq, -, hc⟩ := generate_sample_spec sc al s.queue s.cycles_in_buffer hal
    have hsplit : cycSum (List.take k s.queue) + cycSum (List.drop k s.queue)
        = cycSum s.queue := by
      rw [← cycSum_append, List.take_append_drop]
    constructor
    · unfold Inv worker_generate_sample
      simp only [hq, hc]
      rw [hinv]
      omega
    · constructor
      · intro w hw
        simp only [worker_generate_sample, hq] at hw
        exact hwf.1 w (List.mem_of_mem_drop hw)
      · simp only [worker_generate_sample, hq, List.length_drop]
        exact le_trans (Nat.sub_le _ _) hwf.2
  · have hng : (al > AUDIO_STREAM_MAX_LIMIT) := by omega
    constructor
    · unfold Inv worker_generate_sample generate_sample
      simp only [hng, if_pos]
      exact hinv
    · constructor
      · intro w hw
        simp only [worker_generate_sample, generate_sample, hng, if_pos] at hw
        exact hwf.1 w hw
      · simp only [worker_generate_sample, generate_sample, hng, if_pos]
        exact hwf.2

theorem read_from_sid_preserve (sc : Nat) (s : PlayerState) (reg cycles : Nat)
    (hwf : WF s) (hinv : Inv s) (hroom : s.queue.length < SID_WRITES_BUFFER_SIZE)
    (hcyc : cycles ≤ 65535) :
    Inv (read_from_sid sc s reg cycles).1 ∧ WF (read_from_sid sc s reg cycles).1 := by
  have hregmask : reg % 256 / 32 * 32 + 0x1e ≤ 255 := by omega
  have hs1wf : WF { s with queue_started := true } := hwf
  have hs1inv : Inv { s with queue_started := true } := hinv
  obtain ⟨h2inv, h2wf, -, -⟩ :=
    write_to_sid_preserve { s with queue_started := true } (reg % 256 / 32 * 32 + 0x1e) 0 cycles
      hs1wf hs1inv hroom hregmask (by omega) hcyc
  simp only [read_from_sid, dummy_write, drainLoop_spec]
  refine ⟨?_, ?_, ?_⟩
  · unfold Inv at h2inv ⊢
    simp [h2inv, cycSum]
  · intro w hw
    simp at hw
  · simp [SID_WRITES_BUFFER_SIZE]

theorem parseWrites_length (data : List Nat) :
    (parseWrites data).length = data.length / 4 := by
  induction data using parseWrites.induct with
  | case1 c_hi c_lo reg val rest ih =>
    simp only [parseWrites, List.length_cons, ih]
    omega
  | case2 t h =>
    rcases t with _ | ⟨a, _ | ⟨b, _ | ⟨c, _ | ⟨d, r⟩⟩⟩⟩
    · show ([] : List SidWrite).length = ([] : List Nat).length / 4
      norm_num
    · show ([] : List SidWrite).length = ([a] : List Nat).length / 4
      norm_num
    · show ([] : List SidWrite).length = ([a, b] : List Nat).length / 4
      norm_num
    · show ([] : List SidWrite).length = ([a, b, c] : List Nat).length / 4
      norm_num
    · exact absurd rfl (h a b c d r)

theorem pushWrites_flags : ∀ (s : PlayerState) (data : List Nat),
    (pushWrites s data).queue_started = s.queue_started ∧
    (pushWrites s data).aborted = s.aborted := by
  intro s data
  induction s, data using pushWrites.induct with
  | case1 s c_hi c_lo reg val rest ih =>
    simp only [pushWrites]
    exact ⟨ih.1.trans (write_to_sid_flags s reg val _).1,
           ih.2.trans (write_to_sid_flags s reg val _).2⟩
  | case2 t s h =>
    rcases t with _ | ⟨a, _ | ⟨b, _ | ⟨c, _ | ⟨d, r⟩⟩⟩⟩
    · exact ⟨rfl, rfl⟩
    · exact ⟨rfl, rfl⟩
    · exact ⟨rfl, rfl⟩
    · exact ⟨rfl, rfl⟩
    · exact absurd rfl (h a b c d r)

theorem pushWrites_queue : ∀ (s : PlayerState) (data : List Nat),
    s.queue.length + (parseWrites data).length ≤ SID_WRITES_BUFFER_SIZE →
    (pushWrites s data).queue = s.queue ++ parseWrites data := by
  intro s data
  induction s, data using pushWrites.induct with
  | case1 s c_hi c_lo reg val rest ih =>
    intro hroom
    simp only [parseWrites, List.length_cons] at hroom
    have hr : s.queue.length < SID_WRITES_BUFFER_SIZE := by omega
    have hq : (write_to_sid s reg val (c_hi * 256 + c_lo)).queue
        = s.queue ++ [{ reg := reg, data := val, cycles := c_hi * 256 + c_lo }] := by
      simp [write_to_sid, hr]
    simp only [pushWrites, parseWrites]
    rw [ih (by rw [hq]; simp; omega), hq]
    simp
  | case2 t s h =>
    intro _
    rcases t with _ | ⟨a, _ | ⟨b, _ | ⟨c, _ | ⟨d, r⟩⟩⟩⟩
    · simp [pushWrites, parseWrites]
    · simp [pushWrites, parseWrites]
    · simp [pushWrites, parseWrites]
    · simp [pushWrites, parseWrites]
    · exact absurd rfl (h a b c d r)

theorem has_max_false_eq (p : PlayerState) (h : (has_max_data_in_buffer p).1 = false) :
    (has_max_data_in_buffer p).2 = p := by
  by_cases hc : hasMaxCond p = true
  · simp [has_max_data_in_buffer, hc] at h
  · simp [has_max_data_in_buffer, hc]

theorem has_max_true_eq (p : PlayerState) (h : ¬ (has_max_data_in_buffer p).1 = false) :
    (has_max_data_in_buffer p).2 = start_draining p ∧ hasMaxCond p = true := by
  by_cases hc : hasMaxCond p = true
  · simp [has_max_data_in_buffer, hc]
  · simp [has_max_data_in_buffer, hc] at h

theorem has_min_flush (p : PlayerState) :
    has_min_data_in_buffer (flush p) = false := by
  simp [flush, clear_queue, has_min_data_in_buffer, MIN_CYCLES_TO_DRAIN_QUEUE,
    MIN_WRITES_TO_DRAIN_QUEUE]

theorem has_min_clear (p : PlayerState) :
    has_min_data_in_buffer (clear_queue p) = false := by
  simp [clear_queue, has_min_data_in_buffer, MIN_CYCLES_TO_DRAIN_QUEUE,
    MIN_WRITES_TO_DRAIN_QUEUE]

theorem minCheck_startedInv (p1 : PlayerState) :
    has_min_data_in_buffer
        (if has_min_data_in_buffer p1 then start_draining p1 else p1) = true →
    (if has_min_data_in_buffer p1 then start_draining p1 else p1).queue_started = true := by
  by_cases h : has_min_data_in_buffer p1 = true
  · simp [h, start_draining]
  · have hb : has_min_data_in_buffer p1 = false := by
      cases hval : has_min_data_in_buffer p1
      · rfl
      · exact absurd hval h
    simp [hb]

theorem process_writes_startedInv (sc : Nat) (p : PlayerState) (data : List Nat) :
    has_min_data_in_buffer (process_writes sc p data).1 = true →
    (process_writes sc p data).1.queue_started = true := by
  simp only [process_writes]
  split
  · intro _
    exact read_from_sid_started sc _ _ _
  · exact minCheck_startedInv (pushWrites p data)

theorem process_command_startedInv (ae : Bool) (s : ServerState) (f : Frame)
    (h : StartedInv s) : StartedInv (process_command ae s f).1 := by
  cases hc : Command.from_u8 f.cmd with
  | TryWrite =>
    simp only [process_command, hc, reduceCtorEq, if_false, ne_eq, not_false_eq_true, and_true]
    split
    · exact h
    split
    · exact h
    split
    · exact h
    split
    · split
      · intro hmin
        exact process_writes_startedInv _ _ _ hmin
      · next hfalse _ =>
        intro hmin
        rw [has_max_false_eq _ hfalse] at hmin ⊢
        exact h hmin
    · next hfalse =>
      intro _
      rw [(has_max_true_eq _ hfalse).1]
      rfl
  | TryRead =>
    simp only [process_command, hc, reduceCtorEq, if_false, ne_eq, not_false_eq_true, and_true]
    split
    · exact h
    split
    · exact h
    split
    · exact h
    split
    · intro hmin
      exact process_writes_startedInv _ _ _ hmin
    · next hfalse =>
      intro _
      rw [(has_max_true_eq _ hfalse).1]
      rfl
  | TryDelay =>
    simp only [process_command, hc, reduceCtorEq, if_false, ne_eq, not_false_eq_true, and_true]
    split
    · exact h
    split
    · exact h
    split
    · exact h
    split
    · intro hmin
      exact minCheck_startedInv _ hmin
    · next hfalse =>
      intro _
      rw [(has_max_true_eq _ hfalse).1]
      rfl
  | TryReset =>
    simp only [process_command, hc, reduceCtorEq, if_false, ne_eq, not_false_eq_true, and_true]
    split
    · exact h
    split
    · split
      · next hfalse =>
        intro hmin
        rw [has_max_false_eq _ hfalse] at hmin ⊢
        exact h hmin
      · next hfalse =>
        intro _
        rw [(has_max_true_eq _ hfalse).1]
        rfl
    · exact h
  | Flush =>
    simp only [process_command, hc, reduceCtorEq, if_false, ne_eq, not_true_eq_false, and_false]
    intro hmin
    rw [has_min_flush] at hmin
    exact absurd hmin (by simp)
  | TrySetSidCount =>
    simp only [process_command, hc, reduceCtorEq, if_false, ne_eq, not_false_eq_true, and_true]
    split
    · exact h
    split
    · intro hmin
      rw [has_min_clear] at hmin
      exact absurd hmin (by simp)
    · exact h
  | TrySetSidModel =>
    simp only [process_command, hc, reduceCtorEq, if_false, ne_eq, not_false_eq_true, and_true]
    split
    · exact h
    split
    · exact h
    · exact h
  | TrySetClock =>
    simp only [process_command, hc, reduceCtorEq, if_false, ne_eq, not_false_eq_true, and_true]
    split
    · exact h
    split
    · exact h
    · exact h
  | SetSidPosition =>
    simp only [process_command, hc, reduceCtorEq, if_false, ne_eq, not_false_eq_true, and_true]
    split
    · exact h
    split
    · exact h
    · exact h
  | TrySetSampling =>
    simp only [process_command, hc, reduceCtorEq, if_false, ne_eq, not_false_eq_true, and_true]
    split
    · exact h
    split
    · exact h
    · exact h
  | GetVersion =>
    simp only [process_command, hc, reduceCtorEq, if_false, ne_eq, not_false_eq_true, and_true]
    split
    · exact h
    · exact h
  | GetConfigCount =>
    simp only [process_command, hc, reduceCtorEq, if_false, ne_eq, not_false_eq_true, and_true]
    split
    · exact h
    · exact h
  | GetConfigInfo =>
    simp only [process_command, hc, reduceCtorEq, if_false, ne_eq, not_false_eq_true, and_true]
    split
    · exact h
    · exact h
  | Mute =>
    simp only [process_command, hc, reduceCtorEq, if_false, ne_eq, not_false_eq_true, and_true]
    split
    · exact h
    · exact h
  | SetSidLevel =>
    simp only [process_command, hc, reduceCtorEq, if_false, ne_eq, not_false_eq_true, and_true]
    split
    · exact h
    · exact h
  | SetDelay =>
    simp only [process_command, hc, reduceCtorEq, if_false, ne_eq, not_false_eq_true, and_true]
    split
    · exact h
    · exact h
  | SetFadeIn =>
    simp only [process_command, hc, reduceCtorEq, if_false, ne_eq, not_false_eq_true, and_true]
    split
    · exact h
    · exact h
  | SetFadeOut =>
    simp only [process_command, hc, reduceCtorEq, if_false, ne_eq, not_false_eq_true, and_true]
    split
    · exact h
    · exact h
  | SetPsidHeader =>
    simp only [process_command, hc, reduceCtorEq, if_false, ne_eq, not_false_eq_true, and_true]
    split
    · exact h
    · exact h
  | Unknown =>
    simp only [process_command, hc, if_pos]
    exact h

theorem steps_startedInv (l : List Frame) (s : ServerState) (h : StartedInv s) :
    StartedInv (steps s l) := by
  induction l generalizing s with
  | nil => exact h
  | cons f rest ih => exact ih _ (process_command_startedInv false s f h)

theorem reachable_startedInv (s : ServerState) (h : Reachable s) : StartedInv s := by
  obtain ⟨l, rfl⟩ := h
  exact steps_startedInv l initServer (fun hmin => absurd hmin (by decide))

/-- C3: in every reachable session state, when `TryWrite`, `TryRead`,
`TryDelay` or `TryReset` answers BUSY (1) because `has_max_data_in_buffer()`
is true, the server state is unchanged: no `SidWrite` is enqueued,
`cycles_in_buffer` keeps its value, and no pacing flag changes —
`has_max_data_in_buffer`'s store of `queue_started := true` writes the value
the flag already has, since in reachable states the over-threshold condition
implies the drain was already started (no other command answers [1]). -/
theorem C3_busy_no_state_change (s : ServerState) (f : Frame)
    (hreach : Reachable s)
    (hbusy : (process_command false s f).2.1 = [CommandResponse.Busy.toNat]) :
    (process_command false s f).1 = s := by
  have hinv := reachable_startedInv s hreach
  have hbstate : ∀ _ : ¬ (has_max_data_in_buffer s.player).1 = false,
      ({ s with player := (has_max_data_in_buffer s.player).2 } : ServerState) = s := by
    intro hfalse
    obtain ⟨heq, hcond⟩ := has_max_true_eq _ hfalse
    rw [heq, start_draining_eq _ (hinv (hasMaxCond_implies_min _ hcond))]
  cases hc : Command.from_u8 f.cmd with
  | TryWrite =>
    simp only [process_command, hc, reduceCtorEq, if_false, ne_eq, not_false_eq_true, and_true,
      Bool.false_eq_true] at hbusy ⊢
    split at hbusy
    · simp [CommandResponse.toNat] at hbusy
    next h1 =>
    split at hbusy
    · simp [CommandResponse.toNat] at hbusy
    next h2 =>
    split at hbusy
    · simp [CommandResponse.toNat] at hbusy
    next h3 =>
    rw [if_neg h1, if_neg h2, if_neg h3]
    exact hbstate h3
  | TryRead =>
    simp only [process_command, hc, reduceCtorEq, if_false, ne_eq, not_false_eq_true, and_true,
      Bool.false_eq_true] at hbusy ⊢
    split at hbusy
    · simp [CommandResponse.toNat] at hbusy
    next h1 =>
    split at hbusy
    · simp [CommandResponse.toNat] at hbusy
    next h2 =>
    split at hbusy
    · simp [CommandResponse.toNat] at hbusy
    next h3 =>
    rw [if_neg h1, if_neg h2, if_neg h3]
    exact hbstate h3
  | TryDelay =>
    simp only [process_command, hc, reduceCtorEq, if_false, ne_eq, not_false_eq_true, and_true,
      Bool.false_eq_true] at hbusy ⊢
    split at hbusy
    · simp [CommandResponse.toNat] at hbusy
    next h1 =>
    split at hbusy
    · simp [CommandResponse.toNat] at hbusy
    next h2 =>
    split at hbusy
    · simp [CommandResponse.toNat] at hbusy
    next h3 =>
    rw [if_neg h1, if_neg h2, if_neg h3]
    exact hbstate h3
  | TryReset =>
    simp only [process_command, hc, reduceCtorEq, if_false, ne_eq, not_false_eq_true, and_true,
      Bool.false_eq_true] at hbusy ⊢
    split at hbusy
    · simp [CommandResponse.toNat] at hbusy
    next h1 =>
    split at hbusy
    next h2 =>
      split at hbusy
      · simp [CommandResponse.toNat] at hbusy
      next h3 =>
      rw [if_neg h1, if_pos h2, if_neg h3]
      exact hbstate h3
    next h2 =>
      simp [CommandResponse.toNat] at hbusy
  | Flush =>
    simp only [process_command, hc, reduceCtorEq, if_false, ne_eq, not_true_eq_false, and_false,
      Bool.false_eq_true] at hbusy
    simp [CommandResponse.toNat] at hbusy
  | TrySetSidCount =>
    simp only [process_command, hc, reduceCtorEq, if_false, ne_eq, not_false_eq_true, and_true,
      Bool.false_eq_true] at hbusy
    split at hbusy
    · simp [CommandResponse.toNat] at hbusy
    split at hbusy <;> simp [CommandResponse.toNat] at hbusy
  | TrySetSidModel =>
    simp only [process_command, hc, reduceCtorEq, if_false, ne_eq, not_false_eq_true, and_true,
      Bool.false_eq_true] at hbusy
    split at hbusy
    · simp [CommandResponse.toNat] at hbusy
    split at hbusy <;> simp [CommandResponse.toNat] at hbusy
  | TrySetClock =>
    simp only [process_command, hc, reduceCtorEq, if_false, ne_eq, not_false_eq_true, and_true,
      Bool.false_eq_true] at hbusy
    split at hbusy
    · simp [CommandResponse.toNat] at hbusy
    split at hbusy <;> simp [CommandResponse.toNat] at hbusy
  | SetSidPosition =>
    simp only [process_command, hc, reduceCtorEq, if_false, ne_eq, not_false_eq_true, and_true,
      Bool.false_eq_true] at hbusy
    split at hbusy
    · simp [CommandResponse.toNat] at hbusy
    split at hbusy <;> simp [CommandResponse.toNat] at hbusy
  | TrySetSampling =>
    simp only [process_command, hc, reduceCtorEq, if_false, ne_eq, not_false_eq_true, and_true,
      Bool.false_eq_true] at hbusy
    split at hbusy
    · simp [CommandResponse.toNat] at hbusy
    split at hbusy <;> simp [CommandResponse.toNat] at hbusy
  | GetVersion =>
    simp only [process_command, hc, reduceCtorEq, if_false, ne_eq, not_false_eq_true, and_true,
      Bool.false_eq_true] at hbusy
    split at hbusy <;> simp [CommandResponse.toNat] at hbusy
  | GetConfigCount =>
    simp only [process_command, hc, reduceCtorEq, if_false, ne_eq, not_false_eq_true, and_true,
      Bool.false_eq_true] at hbusy
    split at hbusy <;> simp [CommandResponse.toNat] at hbusy
  | GetConfigInfo =>
    simp only [process_command, hc, reduceCtorEq, if_false, ne_eq, not_false_eq_true, and_true,
      Bool.false_eq_true] at hbusy
    split at hbusy <;> simp [CommandResponse.toNat] at hbusy
  | Mute =>
    simp only [process_command, hc, reduceCtorEq, if_false, ne_eq, not_false_eq_true, and_true,
      Bool.false_eq_true] at hbusy
    split at hbusy <;> simp [CommandResponse.toNat] at hbusy
  | SetSidLevel =>
    simp only [process_command, hc, reduceCtorEq, if_false, ne_eq, not_false_eq_true, and_true,
      Bool.false_eq_true] at hbusy
    split at hbusy <;> simp [CommandResponse.toNat] at hbusy
  | SetDelay =>
    simp only [process_command, hc, reduceCtorEq, if_false, ne_eq, not_false_eq_true, and_true,
      Bool.false_eq_true] at hbusy
    split at hbusy <;> simp [CommandResponse.toNat] at hbusy
  | SetFadeIn =>
    simp only [process_command, hc, reduceCtorEq, if_false, ne_eq, not_false_eq_true, and_true,
      Bool.false_eq_true] at hbusy
    split at hbusy <;> simp [CommandResponse.toNat] at hbusy
  | SetFadeOut =>
    simp only [process_command, hc, reduceCtorEq, if_false, ne_eq, not_false_eq_true, and_true,
      Bool.false_eq_true] at hbusy
    split at hbusy <;> simp [CommandResponse.toNat] at hbusy
  | SetPsidHeader =>
    simp only [process_command, hc, reduceCtorEq, if_false, ne_eq, not_false_eq_true, and_true,
      Bool.false_eq_true] at hbusy
    split at hbusy <;> simp [CommandResponse.toNat] at hbusy
  | Unknown =>
    simp only [process_command, hc, if_pos] at hbusy
    simp [CommandResponse.toNat] at hbusy

set_option maxRecDepth 100000 in
/-- Witness for C3: after one `TryWrite` of 46 writes of 65535 cycles each
(over `MAX_CYCLES_IN_BUFFER`), the next `TryWrite` answers BUSY and the
state, `queue_started` included, is exactly the same. -/
theorem C3_witness :
    (process_command false (steps initServer [c3BigFrame]) c3ProbeFrame).2.1
      = [CommandResponse.Busy.toNat] ∧
    (process_command false (steps initServer [c3BigFrame]) c3ProbeFrame).1
      = steps initServer [c3BigFrame] :=
  ⟨by decide,
   C3_busy_no_state_change (steps initServer [c3BigFrame]) c3ProbeFrame
     ⟨[c3BigFrame], rfl⟩ (by decide)⟩

/-- C4 fails as stated: a `TryWrite` frame declaring `length = 4` (N = 1)
whose receive buffer happens to hold 8 payload bytes enqueues two `SidWrite`s
— `process_writes` is handed `&data[4..]`, the entire receive buffer after
the header, and parses every complete 4-byte group in it, not only the
declared `N` groups. -/
theorem C4_counterexample :
    (process_command false initServer
        { cmd := 5, sidNumber := 0, dataLength := 4,
          buffer := [0, 1, 2, 3, 0, 1, 4, 5] }).1.player.queue
      = [{ reg := 2, data := 3, cycles := 1 }, { reg := 4, data := 5, cycles := 1 }] ∧
    ([{ reg := 2, data := 3, cycles := 1 },
      { reg := 4, data := 5, cycles := 1 }] : List SidWrite).length ≠ 1 := by
  refine ⟨by decide, by decide⟩

/-- C4 amended: a `TryWrite` frame whose length field is `N*4` and whose
receive buffer holds exactly those `N*4` payload bytes (the request/response
lockstep case) enqueues exactly `N` `SidWrite`s, each parsed from one
consecutive 4-byte group `(cyc_hi, cyc_lo, reg, val)`, appended to the queue
in order; payload bytes present in the buffer beyond the declared length
would also be interpreted as write data, as the counterexample shows. -/
theorem C4_trywrite_exact (s : ServerState) (f : Frame) (N : Nat)
    (hcmd : f.cmd = 5) (hlen : f.dataLength = N * 4)
    (hbuf : f.buffer.length = f.dataLength)
    (hmax : hasMaxCond s.player = false)
    (hroom : s.player.queue.length + N ≤ SID_WRITES_BUFFER_SIZE) :
    (process_command false s f).2 = ([CommandResponse.Ok.toNat], false) ∧
    (process_command false s f).1.player.queue = s.player.queue ++ parseWrites f.buffer ∧
    (parseWrites f.buffer).length = N := by
  have hfrom : Command.from_u8 f.cmd = Command.TryWrite := by rw [hcmd]; rfl
  have hN : (parseWrites f.buffer).length = N := by
    rw [parseWrites_length, hbuf, hlen]
    omega
  have hlencheck : ¬ (f.dataLength > f.buffer.length ∧ Command.TryWrite ≠ Command.Flush) := by
    rw [hbuf]
    simp
  have hmod : ¬ f.dataLength % 4 ≠ 0 := by
    rw [hlen]
    omega
  have hm : has_max_data_in_buffer s.player = (false, s.player) := by
    simp [has_max_data_in_buffer, hmax]
  have hqueue : (process_command false s f).1.player.queue
      = s.player.queue ++ parseWrites f.buffer ∧
      (process_command false s f).2 = ([CommandResponse.Ok.toNat], false) := by
    simp only [process_command, hfrom, hlencheck, hmod, hm]
    by_cases h4 : 4 ≤ f.dataLength
    · have hnoread : ¬ (f.buffer.length = f.buffer.length / 4 * 4 + 3) := by
        rw [hbuf, hlen]
        omega
      have hpush := pushWrites_queue s.player f.buffer (by rw [hN]; exact hroom)
      simp only [process_writes, hnoread, if_false, if_true, h4, if_pos, reduceCtorEq,
        ite_false, ite_true]
      constructor
      · split
        · simp [start_draining, hpush]
        · simp [hpush]
      · simp
    · have hN0 : N = 0 := by omega
      have hbuf0 : f.buffer = [] := by
        have : f.buffer.length = 0 := by rw [hbuf, hlen, hN0]
        exact List.length_eq_zero.mp this
      simp [h4, hbuf0, parseWrites]
  exact ⟨hqueue.2, hqueue.1, hN⟩

/-- Witness for C4: an exactly-framed two-write `TryWrite` on a fresh
connection appends exactly the two parsed writes and answers OK. -/
theorem C4_witness :
    (process_command false initServer
        { cmd := 5, sidNumber := 0, dataLength := 8,
          buffer := [0, 1, 2, 3, 0, 1, 4, 5] }).2 = ([CommandResponse.Ok.toNat], false) ∧
    (process_command false initServer
        { cmd := 5, sidNumber := 0, dataLength := 8,
          buffer := [0, 1, 2, 3, 0, 1, 4, 5] }).1.player.queue
      = initServer.player.queue ++ parseWrites [0, 1, 2, 3, 0, 1, 4, 5] ∧
    (parseWrites [0, 1, 2, 3, 0, 1, 4, 5]).length = 2 :=
  C4_trywrite_exact initServer
    { cmd := 5, sidNumber := 0, dataLength := 8, buffer := [0, 1, 2, 3, 0, 1, 4, 5] } 2
    rfl (by decide) (by decide) (by decide) (by decide)

/-- C2 fails as stated: on a state whose write queue is exactly at the ring
capacity and whose counter matches the queued cycles, `write_to_sid`'s
`try_push` silently fails while `cycles_in_buffer` is still incremented, so
the counter no longer equals the queued cycles; moreover `flush` (a Player
operation, not the worker) decreases the counter by storing 0. -/
theorem C2_counterexample :
    Inv c2FullState ∧
    ¬ Inv (write_to_sid c2FullState 0 0 1) ∧
    (flush c2SmallState).cycles_in_buffer < c2SmallState.cycles_in_buffer := by
  have hqueue : c2FullState.queue = List.replicate 65536 { reg := 0, data := 0, cycles := 1 } :=
    rfl
  have hcyc : c2FullState.cycles_in_buffer = 65536 := rfl
  have hsum : cycSum c2FullState.queue = 65536 := by
    rw [hqueue, cycSum_replicate]
    norm_num
  have hlen : ¬ c2FullState.queue.length < SID_WRITES_BUFFER_SIZE := by
    rw [hqueue, List.length_replicate]
    simp [SID_WRITES_BUFFER_SIZE]
  refine ⟨?_, ?_, ?_⟩
  · rw [Inv, hcyc, hsum]
  · intro h
    have hq : (write_to_sid c2FullState 0 0 1).queue = c2FullState.queue := by
      rw [write_to_sid, if_neg hlen]
    have hc : (write_to_sid c2FullState 0 0 1).cycles_in_buffer = 65537 := by
      show (c2FullState.cycles_in_buffer + 1) % 2 ^ 32 = 65537
      rw [hcyc]
      norm_num
    rw [Inv, hq, hc, hsum] at h
    omega
  · show (0 : Nat) < 5
    omega

/-- C2 amended: after every `Player` operation in which each enqueue finds
the ring below capacity (and after every completed `generate_sample` call),
`cycles_in_buffer` equals the sum of the `cycles` fields of the queued
`SidWrite`s, provided it did before; and the counter is decreased only by
the worker consuming writes (`generate_sample`, including the drain behind
`read_from_sid`) and by the queue-clearing operations `flush`,
`set_sid_count` and `set_audio_device`, which reset it to zero together with
the queue — every other operation leaves it equal or larger. -/
theorem C2_cycles_invariant (s : PlayerState) (op : PlayerOp) (sc al : Nat)
    (hwf : WF s) (hinv : Inv s) (hop : opOk op s) :
    (Inv (applyPlayerOp op s) ∧ WF (applyPlayerOp op s)) ∧
    (Inv (worker_generate_sample sc al s).2 ∧ WF (worker_generate_sample sc al s).2) ∧
    (op.clearsQueue = false → op.isRead = false →
      s.cycles_in_buffer ≤ (applyPlayerOp op s).cycles_in_buffer) := by
  refine ⟨?_, worker_generate_preserve sc al s hwf hinv, ?_⟩
  · cases op with
    | writeToSid reg data cycles =>
      obtain ⟨hroom, hreg, hdata, hcyc⟩ := hop
      obtain ⟨hi, hw, -, -⟩ :=
        write_to_sid_preserve s reg data cycles hwf hinv hroom hreg hdata hcyc
      exact ⟨hi, hw⟩
    | readFromSid sc' reg cycles =>
      obtain ⟨hroom, hcyc⟩ := hop
      exact read_from_sid_preserve sc' s reg cycles hwf hinv hroom hcyc
    | hasMaxData =>
      by_cases h : hasMaxCond s = true
      · simp only [applyPlayerOp, has_max_data_in_buffer, h, if_true]
        exact ⟨hinv, hwf⟩
      · simp only [applyPlayerOp, has_max_data_in_buffer, h, Bool.false_eq_true, if_false]
        exact ⟨hinv, hwf⟩
    | startDraining => exact ⟨hinv, hwf⟩
    | flush =>
      constructor
      · simp [applyPlayerOp, Inv, flush, clear_queue, cycSum]
      · simp [applyPlayerOp, WF, flush, clear_queue, SID_WRITES_BUFFER_SIZE]
    | setSidCount n =>
      constructor
      · simp [applyPlayerOp, Inv, clear_queue, cycSum]
      · simp [applyPlayerOp, WF, clear_queue, SID_WRITES_BUFFER_SIZE]
    | setAudioDevice =>
      constructor
      · simp [applyPlayerOp, Inv, clear_queue, cycSum]
      · simp [applyPlayerOp, WF, clear_queue, SID_WRITES_BUFFER_SIZE]
    | _ => exact ⟨hinv, hwf⟩
  · intro hclear hread
    cases op with
    | writeToSid reg data cycles =>
      obtain ⟨hroom, hreg, hdata, hcyc⟩ := hop
      obtain ⟨-, -, hc, -⟩ :=
        write_to_sid_preserve s reg data cycles hwf hinv hroom hreg hdata hcyc
      simp only [applyPlayerOp, hc]
      omega
    | readFromSid sc' reg cycles => simp [PlayerOp.isRead] at hread
    | flush => simp [PlayerOp.clearsQueue] at hclear
    | setSidCount n => simp [PlayerOp.clearsQueue] at hclear
    | setAudioDevice => simp [PlayerOp.clearsQueue] at hclear
    | hasMaxData =>
      by_cases h : hasMaxCond s = true
      · simp only [applyPlayerOp, has_max_data_in_buffer, h, if_true, start_draining]
        exact le_refl _
      · simp only [applyPlayerOp, has_max_data_in_buffer, h, Bool.false_eq_true, if_false]
        exact le_refl _
    | _ => exact le_refl _

/-- Witness for C2: on the fresh player, enqueueing one in-range write
preserves the invariant, and the counter does not decrease. -/
theorem C2_witness :
    (Inv (applyPlayerOp (PlayerOp.writeToSid 24 15 100) initPlayer) ∧
     WF (applyPlayerOp (PlayerOp.writeToSid 24 15 100) initPlayer)) ∧
    (Inv (worker_generate_sample 1 0 initPlayer).2 ∧
     WF (worker_generate_sample 1 0 initPlayer).2) ∧
    ((PlayerOp.writeToSid 24 15 100).clearsQueue = false →
      (PlayerOp.writeToSid 24 15 100).isRead = false →
      initPlayer.cycles_in_buffer
        ≤ (applyPlayerOp (PlayerOp.writeToSid 24 15 100) initPlayer).cycles_in_buffer) :=
  C2_cycles_invariant initPlayer (PlayerOp.writeToSid 24 15 100) 1 0
    (by constructor <;> simp [initPlayer, SID_WRITES_BUFFER_SIZE])
    (by simp [Inv, initPlayer, cycSum])
    (by refine ⟨by simp [initPlayer, SID_WRITES_BUFFER_SIZE], by omega, by omega, by omega⟩)

/-- Witness for C1 on a concrete queue: two writes for SID indices 1 and 0. -/
theorem C1_witness :
    ∃ k, (generate_sample 2 0 [{ reg := 56, data := 7, cycles := 10 },
        { reg := 4, data := 9, cycles := 20 }] 30).2.1
        = ([{ reg := 56, data := 7, cycles := 10 },
            { reg := 4, data := 9, cycles := 20 }] : List SidWrite).drop k ∧
      (generate_sample 2 0 [{ reg := 56, data := 7, cycles := 10 },
          { reg := 4, data := 9, cycles := 20 }] 30).1
        = deliveredEvents 2 (([{ reg := 56, data := 7, cycles := 10 },
            { reg := 4, data := 9, cycles := 20 }] : List SidWrite).take k) ∧
      ∀ i, writeTrace i (generate_sample 2 0 [{ reg := 56, data := 7, cycles := 10 },
          { reg := 4, data := 9, cycles := 20 }] 30).1
        = ((([{ reg := 56, data := 7, cycles := 10 },
              { reg := 4, data := 9, cycles := 20 }] : List SidWrite).take k).filter
            (targets 2 i)).map (fun w => (w.reg % 32, w.data)) :=
  C1_delivery_order 2 0 [{ reg := 56, data := 7, cycles := 10 },
    { reg := 4, data := 9, cycles := 20 }] 30 (by decide)

end SidDevice
